import Mathlib

/-!
Verification of the givenergy-modbus-async protocol and request-correlation
engine, as a shallow embedding of the python sources.

The embedding covers:
* the transparent PDU hierarchy, its shape hash, wire encoding and decoding
  (src/givenergy_modbus/pdu/transparent.py, src/givenergy_modbus/pdu/base.py);
* the expected-responses correlation table of the client
  (src/givenergy_modbus/client/client.py);
* the plant register-cache update rules (src/givenergy_modbus/model/plant.py);
* the register-cache JSON round trip (src/givenergy_modbus/model/register_cache.py);
* the inverter register schema and writable-register lookup
  (src/givenergy_modbus/model/inverter.py);
* the command composer (src/givenergy_modbus/client/commands.py).

Byte strings are modelled as lists of naturals (each a latin-1 byte value).
Python integers are modelled as Int where a field may be negative (the class
defaults are -1), and as Nat where the value is a decoded byte quantity.
-/

namespace GivEnergy

/-- The optional-field flags of a transparent message
(class `Field` in transparent.py). -/
structure Fields where
  serial : Bool
  base : Bool
  count : Bool
  values : Bool
deriving DecidableEq, Repr

/-- The concrete transparent PDU classes of transparent.py
(`NullResponse`, `Read*Registers{Request,Response}`,
`WriteHoldingRegister{Request,Response}`). -/
inductive TKind
  | readHoldingReq
  | readHoldingRsp
  | readInputReq
  | readInputRsp
  | readBatteryReq
  | readBatteryRsp
  | writeHoldingReq
  | writeHoldingRsp
  | nullRsp
deriving DecidableEq, Repr

/-- The `fields` class attribute of each transparent PDU class. -/
def fieldsOf : TKind → Fields
  | .readHoldingReq => ⟨false, true, true, false⟩
  | .readHoldingRsp => ⟨true, true, true, true⟩
  | .readInputReq => ⟨false, true, true, false⟩
  | .readInputRsp => ⟨true, true, true, true⟩
  | .readBatteryReq => ⟨false, true, true, false⟩
  | .readBatteryRsp => ⟨true, true, true, true⟩
  | .writeHoldingReq => ⟨false, true, false, true⟩
  | .writeHoldingRsp => ⟨true, true, false, true⟩
  | .nullRsp => ⟨true, false, false, true⟩

/-- The `transparent_function_code` class attribute
(NULLRESPONSE = 0, READHOLDING = 3, READINPUT = 4, WRITEHOLDING = 6,
READBATTERY = 22). -/
def tfcOf : TKind → Nat
  | .nullRsp => 0
  | .readHoldingReq | .readHoldingRsp => 3
  | .readInputReq | .readInputRsp => 4
  | .writeHoldingReq | .writeHoldingRsp => 6
  | .readBatteryReq | .readBatteryRsp => 22

/-- Whether the class is a `TransparentRequest` (as opposed to a
`TransparentResponse`). -/
def isRequestKind : TKind → Bool
  | .readHoldingReq | .readInputReq | .readBatteryReq | .writeHoldingReq => true
  | _ => false

/-- The class-level `register_count` default: `WriteHoldingRegister*` fix it
at 1, `NullResponse` at 62, and the root class default is -1. -/
def classRegisterCount : TKind → Int
  | .writeHoldingReq | .writeHoldingRsp => 1
  | .nullRsp => 62
  | _ => -1

/-- The latin-1 bytes of the default `data_adapter_serial_number`
string AB1234G567 (base.py). -/
def defaultAdapterSerial : List Nat :=
  [65, 66, 49, 50, 51, 52, 71, 53, 54, 55]

/-- A `TransparentMessage` instance: the concrete class plus the instance
attributes of transparent.py.  Serial numbers are kept as latin-1 byte
lists; `baseRegister`, `registerCount` and `check` keep the class default
-1 when never assigned, hence are Int. -/
structure TransparentMessage where
  kind : TKind
  dataAdapterSerialNumber : List Nat := defaultAdapterSerial
  inverterSerialNumber : Option (List Nat) := none
  slaveAddress : Nat := 0x32
  baseRegister : Int := -1
  registerCount : Int := -1
  registerValues : List Int := []
  error : Bool := false
  padding : Nat := 0x08
  check : Int := -1
deriving DecidableEq, Repr

/-- The validation performed by `TransparentMessage.__init__`: required
fields must have been supplied with valid values, where `fields` decides
which are required. -/
def ValidPduState (m : TransparentMessage) : Prop :=
  ((fieldsOf m.kind).serial → m.inverterSerialNumber.isSome) ∧
  ((fieldsOf m.kind).base → 0 ≤ m.baseRegister ∧ m.baseRegister ≤ 0xFFFF) ∧
  ((fieldsOf m.kind).count → 1 ≤ m.registerCount) ∧
  ((fieldsOf m.kind).values → m.error = false →
    m.registerValues ≠ [] ∧ (m.registerValues.length : Int) = m.registerCount)

instance (m : TransparentMessage) : Decidable (ValidPduState m) := by
  unfold ValidPduState; infer_instance

/-- `TransparentMessage.shape_hash`: the decimal bit-field combination of
slave address, transparent function code, register count and base register.
The python body starts with `assert Field.BASE in self.fields`; a message
without the BASE field (only `NullResponse`) makes the call raise
`AssertionError`, modelled as `none`. -/
def shapeHash (m : TransparentMessage) : Option Int :=
  if (fieldsOf m.kind).base then
    some ((m.slaveAddress : Int) * 1
      + (tfcOf m.kind : Int) * 1000
      + m.registerCount * 100000
      + m.baseRegister * 10000000)
  else
    none

/-- The kinds the shape hash is taken over: every transparent class except
`NullResponse` carries a base register. -/
def ShapedKind (k : TKind) : Prop := k ≠ TKind.nullRsp

instance (k : TKind) : Decidable (ShapedKind k) := by
  unfold ShapedKind; infer_instance

theorem shaped_base (k : TKind) (h : ShapedKind k) : (fieldsOf k).base = true := by
  cases k <;> simp_all [ShapedKind, fieldsOf]

/-- `WriteHoldingRegisterRequest.__eq__`: identical class, equal shape hash
and identical register values. -/
def WriteReqEq (m o : TransparentMessage) : Prop :=
  o.kind = m.kind ∧ m.kind = TKind.writeHoldingReq ∧
  shapeHash m = shapeHash o ∧ m.registerValues = o.registerValues

/-- `WriteHoldingRegisterRequest(register, value)`: the positional aliases
store `base_register := register` and `register_values := (value,)`; the
class fixes `register_count = 1`, and `slave_address` defaults to 0x32. -/
def mkWriteRequest (register : Int) (value : Int) : TransparentMessage :=
  { kind := .writeHoldingReq
    baseRegister := register
    registerCount := 1
    registerValues := [value] }

/-- The unsolicited `NullResponse` payload: transparent function code 0 and
62 zero words (transparent.py, `register_count = 62`). -/
def nullResponseMsg (serial : List Nat) : TransparentMessage :=
  { kind := .nullRsp
    inverterSerialNumber := some serial
    registerCount := 62
    registerValues := List.replicate 62 0 }

end GivEnergy
namespace GivEnergy

/-! ## The expected-responses correlation table (client.py)

`Client.expected_responses` maps a shape hash to the single future awaiting
a response of that shape.  Futures are modelled by creation index; a future
is pending, cancelled or finished.  The three transitions below are the
exact synchronous blocks of client.py that touch the table:

* `installStep` is lines 402-411 of `send_request_and_await_response`:
  look up the hash, cancel the stored future if it is still pending, create
  a fresh future and store it under the hash;
* `consumeStep` is lines 328-331 of `_task_network_consumer`: look up the
  response shape hash and complete the stored future if it is not done;
* `cancelStep` is the cancellation a future can suffer from the outside
  (`asyncio.wait_for` timing out in line 422, or the caller being
  cancelled); it never touches the table itself.

Each block runs without an await point inside it, so on the single-threaded
event loop it is atomic, and every interleaving of the client tasks is a
sequence of these steps. -/

/-- Status of an asyncio future: `done()` is true for both `finished` and
`cancelled`. -/
inductive FutStatus
  | pending
  | cancelled
  | finished
deriving DecidableEq, Repr

/-- The client state seen by the correlation logic: every future ever
created (by creation index), the `expected_responses` table, and the next
fresh index. -/
structure ClientState where
  futures : Nat → Option (Int × FutStatus)
  expected : Int → Option Nat
  nextId : Nat

/-- A fresh client has an empty table and no futures. -/
def initClientState : ClientState :=
  { futures := fun _ => none, expected := fun _ => none, nextId := 0 }

/-- `future.cancel()` at one index: a pending future becomes cancelled, a
done (cancelled or finished) future is left alone. -/
def cancelFuture (f : Nat → Option (Int × FutStatus)) (fid : Nat) :
    Nat → Option (Int × FutStatus) :=
  fun g =>
    if g = fid then
      match f fid with
      | some (h, .pending) => some (h, .cancelled)
      | x => x
    else f g

/-- `future.set_result(message)` guarded by `not future.done()` at one
index: a pending future becomes finished, a done future is left alone. -/
def completeFuture (f : Nat → Option (Int × FutStatus)) (fid : Nat) :
    Nat → Option (Int × FutStatus) :=
  fun g =>
    if g = fid then
      match f fid with
      | some (h, .pending) => some (h, .finished)
      | x => x
    else f g

/-- Lines 402-411 of `send_request_and_await_response`: cancel any
still-pending future stored under the shape hash, then store a freshly
created pending future there. -/
def installStep (s : ClientState) (h : Int) : ClientState :=
  { futures := fun g =>
      if g = s.nextId then some (h, .pending)
      else
        match s.expected h with
        | some old => cancelFuture s.futures old g
        | none => s.futures g
    expected := fun h2 => if h2 = h then some s.nextId else s.expected h2
    nextId := s.nextId + 1 }

/-- Lines 328-331 of `_task_network_consumer`: get the future stored under
the shape hash of the received response and, if there is one and it is not
done, complete it with the message. -/
def consumeStep (s : ClientState) (h : Int) : ClientState :=
  match s.expected h with
  | none => s
  | some fid => { s with futures := completeFuture s.futures fid }

/-- Cancellation of a future from outside the table (timeout of
`asyncio.wait_for`, or caller cancellation); the table is not touched. -/
def cancelStep (s : ClientState) (fid : Nat) : ClientState :=
  { s with futures := cancelFuture s.futures fid }

/-- The client states reachable from a fresh client by any interleaving of
the request and consumer task blocks. -/
inductive ReachableClient : ClientState → Prop
  | init : ReachableClient initClientState
  | install {s} (h : Int) : ReachableClient s → ReachableClient (installStep s h)
  | consume {s} (h : Int) : ReachableClient s → ReachableClient (consumeStep s h)
  | cancel {s} (fid : Nat) : ReachableClient s → ReachableClient (cancelStep s fid)

/-- Future `fid` is still pending and was created for shape hash `h`. -/
def PendingFut (s : ClientState) (fid : Nat) (h : Int) : Prop :=
  s.futures fid = some (h, .pending)

/-- The correlation invariant: every still-pending future is the one stored
in the table under its own shape hash, and only future indices below
`nextId` are in use. -/
def ClientInv (s : ClientState) : Prop :=
  (∀ fid h, PendingFut s fid h → s.expected h = some fid) ∧
  (∀ fid, s.nextId ≤ fid → s.futures fid = none)

theorem clientInv_init : ClientInv initClientState := by
  constructor <;> intro fid h <;> simp [initClientState, PendingFut] at *

theorem clientInv_install (s : ClientState) (h : Int) (hs : ClientInv s) :
    ClientInv (installStep s h) := by
  obtain ⟨htab, hfresh⟩ := hs
  constructor
  · intro fid h2 hp
    unfold PendingFut installStep at hp
    simp only at hp
    show (if h2 = h then some s.nextId else s.expected h2) = some fid
    by_cases e : fid = s.nextId
    · subst e
      simp only [if_pos rfl, Option.some.injEq, Prod.mk.injEq] at hp
      obtain ⟨rfl, -⟩ := hp
      simp
    · simp only [if_neg e] at hp
      have hold : PendingFut s fid h2 := by
        unfold PendingFut
        rcases ho : s.expected h with _ | old
        · simpa [ho] using hp
        · simp only [ho] at hp
          unfold cancelFuture at hp
          by_cases e2 : fid = old
          · subst e2
            exfalso
            rcases hf : s.futures fid with _ | ⟨h3, st⟩ <;>
              simp [hf] at hp
            cases st <;> simp_all
          · simpa [e2] using hp
      have ht := htab fid h2 hold
      by_cases e3 : h2 = h
      · subst e3
        exfalso
        rcases ho : s.expected h2 with _ | old
        · simp [ho] at ht
        · simp only [ho] at hp
          obtain rfl : old = fid := by
            rw [ho] at ht; simpa using ht
          unfold cancelFuture at hp
          unfold PendingFut at hold
          simp [hold] at hp
      · simp [e3, ht]
  · intro fid hle
    unfold installStep at hle ⊢
    simp only at hle ⊢
    have hne : fid ≠ s.nextId := by omega
    have hn : s.futures fid = none := hfresh fid (by omega)
    simp only [if_neg hne]
    rcases ho : s.expected h with _ | old
    · exact hn
    · unfold cancelFuture
      by_cases e2 : fid = old
      · subst e2; simp [hn]
      · simp [e2, hn]

theorem clientInv_consume (s : ClientState) (h : Int) (hs : ClientInv s) :
    ClientInv (consumeStep s h) := by
  obtain ⟨htab, hfresh⟩ := hs
  unfold consumeStep
  rcases ho : s.expected h with _ | fid
  · exact ⟨htab, hfresh⟩
  · constructor
    · intro g hg hp
      unfold PendingFut completeFuture at hp
      simp only at hp
      show s.expected hg = some g
      by_cases e : g = fid
      · subst e
        rcases hf : s.futures g with _ | ⟨h3, st⟩ <;> simp [hf] at hp
        cases st <;> simp_all
      · simp only [if_neg e] at hp
        exact htab g hg hp
    · intro g hle
      simp only at hle ⊢
      have hn : s.futures g = none := hfresh g hle
      unfold completeFuture
      by_cases e : g = fid
      · subst e; simp [hn]
      · simp [e, hn]

theorem clientInv_cancel (s : ClientState) (fid : Nat) (hs : ClientInv s) :
    ClientInv (cancelStep s fid) := by
  obtain ⟨htab, hfresh⟩ := hs
  constructor
  · intro g h hp
    unfold PendingFut cancelStep cancelFuture at hp
    simp only at hp
    show s.expected h = some g
    by_cases e : g = fid
    · subst e
      rcases hf : s.futures g with _ | ⟨h2, st⟩ <;> simp [hf] at hp
      cases st <;> simp_all
    · simp only [if_neg e] at hp
      exact htab g h hp
  · intro g hle
    unfold cancelStep cancelFuture
    simp only at hle ⊢
    have hn : s.futures g = none := hfresh g hle
    by_cases e : g = fid
    · subst e; simp [hn]
    · simp [e, hn]

theorem clientInv_reachable (s : ClientState) (hr : ReachableClient s) :
    ClientInv s := by
  induction hr with
  | init => exact clientInv_init
  | install h _ ih => exact clientInv_install _ h ih
  | consume h _ ih => exact clientInv_consume _ h ih
  | cancel fid _ ih => exact clientInv_cancel _ fid ih

end GivEnergy
namespace GivEnergy

/-! ## Registers and the plant register caches (register.py, plant.py) -/

/-- The two register banks (`Register.TYPE_HOLDING` = HR,
`Register.TYPE_INPUT` = IR). -/
inductive RegBank
  | hr
  | ir
deriving DecidableEq, Repr

/-- A register identity: bank plus index (`Register._type`, `Register._idx`).
Python never range-checks the index, so it is an Int. -/
structure Register where
  bank : RegBank
  idx : Int
deriving DecidableEq, Repr

/-- Shorthand for a holding register. -/
def hrReg (i : Int) : Register := ⟨.hr, i⟩

/-- Shorthand for an input register. -/
def irReg (i : Int) : Register := ⟨.ir, i⟩

/-- The `register_class` class attribute of the response classes:
HR for holding responses, IR for input and battery-input responses.
Request classes do not define it (`none`). -/
def registerClassOf : TKind → Option RegBank
  | .readHoldingRsp | .writeHoldingRsp => some .hr
  | .readInputRsp | .readBatteryRsp => some .ir
  | _ => none

/-- `TransparentMessage.enumerate`: pairs `(register_class(idx), value)` for
consecutive indices starting at `base_register`. -/
def enumeratePairs (m : TransparentMessage) : List (Register × Int) :=
  match registerClassOf m.kind with
  | none => []
  | some bank =>
    m.registerValues.mapIdx fun i v => (⟨bank, m.baseRegister + i⟩, v)

/-- A register cache as used by the plant: a finite map from registers to
values, modelled extensionally. -/
def RegCache : Type := Register → Option Int

/-- The empty register cache (`RegisterCache()`). -/
def emptyRegCache : RegCache := fun _ => none

/-- `dict.__setitem__` on a register cache. -/
def cacheInsert (c : RegCache) (r : Register) (v : Int) : RegCache :=
  fun r2 => if r2 = r then some v else c r2

/-- `dict.update` with a list of pairs (later pairs win). -/
def cacheUpdate (c : RegCache) (pairs : List (Register × Int)) : RegCache :=
  pairs.foldl (fun acc rv => cacheInsert acc rv.1 rv.2) c

/-- The plant state touched by `Plant.update`: the per-slave register
caches, the configured slave address and the two serial numbers.
(`Plant` fields not read or written by `update` - battery counts, the
additional-register lists and the HV flag - are omitted.) -/
structure Plant where
  registerCaches : Nat → Option RegCache
  slaveAddress : Nat
  inverterSerialNumber : List Nat
  dataAdapterSerialNumber : List Nat

/-- `Plant()` with all defaults: `slave_address = 0x31` and one empty cache
at that address (plant.py lines 37 and 44-47). -/
def defaultPlant : Plant :=
  { registerCaches := fun a => if a = 0x31 then some emptyRegCache else none
    slaveAddress := 0x31
    inverterSerialNumber := []
    dataAdapterSerialNumber := [] }

/-- The slave address a response is filed under: 0x11 and 0x00 (cloud and
mobile-app responses) are rewritten to the configured inverter address
(plant.py lines 62-66). -/
def rewriteSlave (p : Plant) (pduSlave : Nat) : Nat :=
  if pduSlave = 0x11 ∨ pduSlave = 0x00 then p.slaveAddress else pduSlave

/-- `Plant.update`: ignore non-responses, `NullResponse` and error
responses; otherwise rewrite the slave address, create the cache on first
sight, record the serial numbers, and apply the register updates of a
read-holding, read-input or (non-zero-register) write-holding response. -/
def plantUpdate (p : Plant) (m : TransparentMessage) : Plant :=
  if isRequestKind m.kind then p
  else if m.kind = .nullRsp then p
  else if m.error then p
  else
    let slave := rewriteSlave p m.slaveAddress
    let cache := (p.registerCaches slave).getD emptyRegCache
    let cache2 :=
      match m.kind with
      | .readHoldingRsp => cacheUpdate cache (enumeratePairs m)
      | .readInputRsp => cacheUpdate cache (enumeratePairs m)
      | .writeHoldingRsp =>
        if m.baseRegister = 0 then cache
        else cacheInsert cache (hrReg m.baseRegister) (m.registerValues.headD 0)
      | _ => cache
    { registerCaches := fun a => if a = slave then some cache2 else p.registerCaches a
      slaveAddress := p.slaveAddress
      inverterSerialNumber := (m.inverterSerialNumber.getD p.inverterSerialNumber)
      dataAdapterSerialNumber := m.dataAdapterSerialNumber }

/-- Look a register up across the plant: `none` when the slave has no cache
or the register is not cached. -/
def plantLookup (p : Plant) (slave : Nat) (r : Register) : Option Int :=
  match p.registerCaches slave with
  | none => none
  | some c => c r

/-- One consumer-loop iteration of `_task_network_consumer` for a received
transparent response: take its shape hash to consult `expected_responses`
(line 328) - raising `AssertionError` for a message without a base register
- then complete any pending future of that shape and update the plant. -/
def consumerHandleResponse (s : ClientState) (p : Plant)
    (m : TransparentMessage) : Except String (ClientState × Plant) :=
  if isRequestKind m.kind then .ok (s, p)
  else
    match shapeHash m with
    | none => .error "AssertionError: Field.BASE in self.fields"
    | some h => .ok (consumeStep s h, plantUpdate p m)

end GivEnergy
namespace GivEnergy

theorem cacheUpdate_append (c : RegCache) (ps qs : List (Register × Int)) :
    cacheUpdate c (ps ++ qs) = cacheUpdate (cacheUpdate c ps) qs := by
  simp [cacheUpdate, List.foldl_append]

theorem enumList_shift (bank : RegBank) (base : Int) (vs : List Int) :
    (vs.mapIdx fun j w => ((⟨bank, base + (((j + 1 : Nat)) : Int)⟩ : Register), w)) =
    vs.mapIdx fun j w => ((⟨bank, (base + 1) + (j : Int)⟩ : Register), w) := by
  have h : (fun (j : Nat) (w : Int) =>
      ((⟨bank, base + (((j + 1 : Nat)) : Int)⟩ : Register), w)) =
      fun (j : Nat) (w : Int) => ((⟨bank, (base + 1) + (j : Int)⟩ : Register), w) := by
    funext j w
    have he : base + (((j + 1 : Nat)) : Int) = (base + 1) + (j : Int) := by
      push_cast
      ring
    rw [he]
  rw [h]

theorem cacheUpdate_enum_miss (bank : RegBank) (vs : List Int) :
    ∀ (base : Int) (c : RegCache) (r : Register),
    (r.bank ≠ bank ∨ r.idx < base ∨ base + vs.length ≤ r.idx) →
    cacheUpdate c (vs.mapIdx fun j w => (⟨bank, base + j⟩, w)) r = c r := by
  induction vs with
  | nil => intro base c r _; simp [cacheUpdate]
  | cons v vs ih =>
    intro base c r hmiss
    rw [List.mapIdx_cons]
    simp only [cacheUpdate, List.foldl_cons] at *
    rw [enumList_shift bank base vs]
    have hne : r ≠ ⟨bank, base⟩ := by
      intro he
      subst he
      rcases hmiss with h | h | h
      · exact h rfl
      · have h2 : base < base := h
        omega
      · have h2 : base + (((vs.length + 1 : Nat)) : Int) ≤ base := h
        omega
    have step : cacheInsert c ⟨bank, base + ((0 : Nat) : Int)⟩ v r = c r := by
      simp [cacheInsert, hne]
    have rec0 := ih (base + 1) (cacheInsert c ⟨bank, base + ((0 : Nat) : Int)⟩ v) r ?_
    · rw [rec0, step]
    · rcases hmiss with h | h | h
      · exact Or.inl h
      · right; left; omega
      · right; right; simp at h ⊢; omega

theorem cacheUpdate_enum_hit (bank : RegBank) (vs : List Int) :
    ∀ (base : Int) (c : RegCache) (i : Nat) (hi : i < vs.length),
    cacheUpdate c (vs.mapIdx fun j w => (⟨bank, base + j⟩, w)) ⟨bank, base + i⟩ =
      some vs[i] := by
  induction vs with
  | nil => intro base c i hi; simp at hi
  | cons v vs ih =>
    intro base c i hi
    rw [List.mapIdx_cons]
    simp only [cacheUpdate, List.foldl_cons] at *
    rw [enumList_shift bank base vs]
    cases i with
    | zero =>
      have hmiss := cacheUpdate_enum_miss bank vs (base + 1)
        (cacheInsert c ⟨bank, base + ((0 : Nat) : Int)⟩ v) ⟨bank, base + ((0 : Nat) : Int)⟩
        (by right; left; simp)
      simp only [cacheUpdate] at hmiss
      rw [hmiss]
      simp [cacheInsert]
    | succ i =>
      have he : ((⟨bank, base + (((i + 1) : Nat) : Int)⟩ : Register)) =
          ⟨bank, (base + 1) + ((i : Nat) : Int)⟩ := by
        have hcast : base + (((i + 1) : Nat) : Int) = (base + 1) + ((i : Nat) : Int) := by
          push_cast
          ring
        rw [hcast]
      rw [he]
      have hrec := ih (base + 1) (cacheInsert c ⟨bank, base + ((0 : Nat) : Int)⟩ v) i
        (by simpa using hi)
      simp only [cacheUpdate] at hrec
      rw [hrec]
      simp

end GivEnergy
namespace GivEnergy

theorem plantUpdate_read (p : Plant) (m : TransparentMessage) (bank : RegBank)
    (hk : (m.kind = .readHoldingRsp ∧ bank = .hr) ∨
      (m.kind = .readInputRsp ∧ bank = .ir))
    (herr : m.error = false) :
    (∀ i (hi : i < m.registerValues.length),
      plantLookup (plantUpdate p m) (rewriteSlave p m.slaveAddress)
        ⟨bank, m.baseRegister + i⟩ = some m.registerValues[i])
    ∧ (∀ a r, a ≠ rewriteSlave p m.slaveAddress ∨ r.bank ≠ bank ∨
        r.idx < m.baseRegister ∨ m.baseRegister + m.registerValues.length ≤ r.idx →
      plantLookup (plantUpdate p m) a r = plantLookup p a r) := by
  have hcache2 : plantUpdate p m =
      { registerCaches := fun a =>
          if a = rewriteSlave p m.slaveAddress then
            some (cacheUpdate ((p.registerCaches (rewriteSlave p m.slaveAddress)).getD
              emptyRegCache)
              (m.registerValues.mapIdx fun j w => (⟨bank, m.baseRegister + j⟩, w)))
          else p.registerCaches a
        slaveAddress := p.slaveAddress
        inverterSerialNumber := m.inverterSerialNumber.getD p.inverterSerialNumber
        dataAdapterSerialNumber := m.dataAdapterSerialNumber } := by
    rcases hk with ⟨hk, rfl⟩ | ⟨hk, rfl⟩ <;>
      simp [plantUpdate, hk, herr, isRequestKind, enumeratePairs, registerClassOf]
  constructor
  · intro i hi
    rw [hcache2]
    have hupd := cacheUpdate_enum_hit bank m.registerValues m.baseRegister
      ((p.registerCaches (rewriteSlave p m.slaveAddress)).getD emptyRegCache) i hi
    simp [plantLookup, hupd]
  · intro a r hmiss
    rw [hcache2]
    by_cases ha : a = rewriteSlave p m.slaveAddress
    · subst ha
      have hm : r.bank ≠ bank ∨ r.idx < m.baseRegister ∨
          m.baseRegister + m.registerValues.length ≤ r.idx := by
        rcases hmiss with h | h | h | h
        · exact absurd rfl h
        · exact Or.inl h
        · exact Or.inr (Or.inl h)
        · exact Or.inr (Or.inr h)
      have hupd := cacheUpdate_enum_miss bank m.registerValues m.baseRegister
        ((p.registerCaches (rewriteSlave p m.slaveAddress)).getD emptyRegCache) r hm
      rcases hc : p.registerCaches (rewriteSlave p m.slaveAddress) with _ | c
      · rw [hc] at hupd
        simp [plantLookup, hc, emptyRegCache] at hupd ⊢
        simp [hupd, emptyRegCache]
      · rw [hc] at hupd
        simp [plantLookup, hc] at hupd ⊢
        simp [hupd]
    · simp [plantLookup, ha]

end GivEnergy
namespace GivEnergy

/-- C1: among the read-holding, read-input, read-battery-input and
write-holding messages (requests or responses), two messages agreeing on
slave address, transparent function code, base register and register count
have the same shape hash, whatever their register values and error flags;
and two messages differing in exactly one of those four components (the
other three held equal) have different shape hashes. -/
theorem C1_shape_hash_characterisation (m1 m2 : TransparentMessage)
    (h1 : ShapedKind m1.kind) (h2 : ShapedKind m2.kind) :
    (m1.slaveAddress = m2.slaveAddress → tfcOf m1.kind = tfcOf m2.kind →
      m1.registerCount = m2.registerCount → m1.baseRegister = m2.baseRegister →
      shapeHash m1 = shapeHash m2)
    ∧ (m1.slaveAddress ≠ m2.slaveAddress → tfcOf m1.kind = tfcOf m2.kind →
      m1.registerCount = m2.registerCount → m1.baseRegister = m2.baseRegister →
      shapeHash m1 ≠ shapeHash m2)
    ∧ (m1.slaveAddress = m2.slaveAddress → tfcOf m1.kind ≠ tfcOf m2.kind →
      m1.registerCount = m2.registerCount → m1.baseRegister = m2.baseRegister →
      shapeHash m1 ≠ shapeHash m2)
    ∧ (m1.slaveAddress = m2.slaveAddress → tfcOf m1.kind = tfcOf m2.kind →
      m1.registerCount ≠ m2.registerCount → m1.baseRegister = m2.baseRegister →
      shapeHash m1 ≠ shapeHash m2)
    ∧ (m1.slaveAddress = m2.slaveAddress → tfcOf m1.kind = tfcOf m2.kind →
      m1.registerCount = m2.registerCount → m1.baseRegister ≠ m2.baseRegister →
      shapeHash m1 ≠ shapeHash m2) := by
  have b1 := shaped_base _ h1
  have b2 := shaped_base _ h2
  simp only [shapeHash, b1, b2, if_true, Ne, Option.some.injEq]
  refine ⟨?_, ?_, ?_, ?_, ?_⟩ <;> intro e1 e2 e3 e4 <;> omega

/-- A concrete read-input request over registers 0-1. -/
def c1ReqMsg : TransparentMessage :=
  { kind := .readInputReq
    baseRegister := 0
    registerCount := 2 }

/-- A concrete read-input response matching `c1ReqMsg` in shape but
carrying register values and the error flag. -/
def c1RspMsg : TransparentMessage :=
  { kind := .readInputRsp
    inverterSerialNumber := some []
    baseRegister := 0
    registerCount := 2
    registerValues := [7, 9]
    error := true }

/-- Witness for C1: a concrete read-input request and its response, which
differ in register values and error flag, have equal shape hashes. -/
theorem C1_shape_hash_witness : shapeHash c1ReqMsg = shapeHash c1RspMsg :=
  (C1_shape_hash_characterisation _ _ (by decide) (by decide)).1 rfl rfl rfl rfl

/-- C2: at every reachable client state the correlation table keeps at most
one still-pending future per shape hash; installing a request cancels the
still-pending future stored under its hash and stores a fresh pending
future there; and the consumer only ever completes the future currently
stored under the shape hash of the response it received. -/
theorem C2_correlation_table (s : ClientState) (hr : ReachableClient s) :
    (∀ fid1 fid2 h, PendingFut s fid1 h → PendingFut s fid2 h → fid1 = fid2)
    ∧ (∀ h old h2, s.expected h = some old → PendingFut s old h2 →
        (installStep s h).futures old = some (h2, .cancelled)
        ∧ (installStep s h).expected h = some s.nextId
        ∧ PendingFut (installStep s h) s.nextId h)
    ∧ (∀ h fid, (consumeStep s h).futures fid ≠ s.futures fid →
        s.expected h = some fid)
    ∧ (∀ h fid h2, s.expected h = some fid → PendingFut s fid h2 →
        (consumeStep s h).futures fid = some (h2, .finished)) := by
  obtain ⟨htab, hfresh⟩ := clientInv_reachable s hr
  refine ⟨?_, ?_, ?_, ?_⟩
  · intro fid1 fid2 h p1 p2
    have e1 := htab fid1 h p1
    have e2 := htab fid2 h p2
    rw [e1] at e2
    exact (Option.some.injEq _ _ ▸ e2)
  · intro h old h2 he hp
    have hlt : old < s.nextId := by
      by_contra hge
      have hz := hfresh old (by omega)
      unfold PendingFut at hp
      rw [hz] at hp
      exact Option.noConfusion hp
    have hne : old ≠ s.nextId := by omega
    unfold installStep PendingFut
    simp only
    refine ⟨?_, by simp, by simp⟩
    rw [if_neg hne, he]
    unfold cancelFuture
    unfold PendingFut at hp
    simp [hp]
  · intro h fid hne
    by_cases e0 : s.expected h = none
    · exfalso
      apply hne
      unfold consumeStep
      rw [e0]
    · obtain ⟨fid0, he⟩ := Option.ne_none_iff_exists'.mp e0
      unfold consumeStep at hne
      rw [he] at hne
      simp only at hne
      unfold completeFuture at hne
      by_cases e : fid = fid0
      · rw [he, e]
      · simp [e] at hne
  · intro h fid h2 he hp
    unfold consumeStep
    rw [he]
    simp only
    unfold completeFuture
    unfold PendingFut at hp
    simp [hp]

/-- Witness for C2: after two installs under the same hash, the first
future is cancelled and the second pending; the theorem applied at the
concrete reachable state reached by one install. -/
theorem C2_correlation_table_witness :
    (installStep (installStep initClientState 5) 5).futures 0 =
      some (5, FutStatus.cancelled)
    ∧ (installStep (installStep initClientState 5) 5).expected 5 =
      some (installStep initClientState 5).nextId
    ∧ PendingFut (installStep (installStep initClientState 5) 5)
        (installStep initClientState 5).nextId 5 :=
  (C2_correlation_table (installStep initClientState 5)
    (ReachableClient.install 5 ReachableClient.init)).2.1 5 0 5 rfl rfl

/-- C3: the consumer crashes on an unsolicited NullResponse, because
`shape_hash` asserts `Field.BASE in self.fields` and `NullResponse.fields`
is `SERIAL | VALUES`: line 328 of `_task_network_consumer` raises
`AssertionError` instead of treating the message as informational. -/
theorem C3_null_response_consumer_error (s : ClientState) (p : Plant)
    (serial : List Nat) :
    shapeHash (nullResponseMsg serial) = none
    ∧ consumerHandleResponse s p (nullResponseMsg serial) =
      .error "AssertionError: Field.BASE in self.fields" := by
  exact ⟨rfl, rfl⟩

end GivEnergy
namespace GivEnergy

/-- C4: a non-error read-holding (or read-input) response makes
`Plant.update` write exactly `register_count` consecutive entries starting
at `base_register` of the target cache, carrying the response values, and
leaves every other cached entry of every slave unchanged; a write-holding
response for register 0, a NullResponse and any error-flagged response
leave every cached entry unchanged. -/
theorem C4_plant_update_semantics :
    (∀ (p : Plant) (m : TransparentMessage) (bank : RegBank),
      ((m.kind = .readHoldingRsp ∧ bank = .hr) ∨
        (m.kind = .readInputRsp ∧ bank = .ir)) →
      m.error = false → ValidPduState m →
      ((m.registerValues.length : Int) = m.registerCount
      ∧ (∀ i (hi : i < m.registerValues.length),
          plantLookup (plantUpdate p m) (rewriteSlave p m.slaveAddress)
            ⟨bank, m.baseRegister + i⟩ = some m.registerValues[i])
      ∧ (∀ a r, a ≠ rewriteSlave p m.slaveAddress ∨ r.bank ≠ bank ∨
            r.idx < m.baseRegister ∨ m.baseRegister + m.registerCount ≤ r.idx →
          plantLookup (plantUpdate p m) a r = plantLookup p a r)))
    ∧ (∀ (p : Plant) (m : TransparentMessage),
      m.kind = .writeHoldingRsp → m.error = false → m.baseRegister = 0 →
      ∀ a r, plantLookup (plantUpdate p m) a r = plantLookup p a r)
    ∧ (∀ (p : Plant) (m : TransparentMessage),
      m.kind = .nullRsp ∨ m.error = true →
      plantUpdate p m = p) := by
  refine ⟨?_, ?_, ?_⟩
  · intro p m bank hk herr hv
    have hlen : (m.registerValues.length : Int) = m.registerCount := by
      have hval : (fieldsOf m.kind).values = true := by
        rcases hk with ⟨hk, -⟩ | ⟨hk, -⟩ <;> rw [hk] <;> rfl
      exact (hv.2.2.2 hval herr).2
    obtain ⟨hhit, hmiss⟩ := plantUpdate_read p m bank hk herr
    refine ⟨hlen, hhit, ?_⟩
    intro a r hr
    apply hmiss
    rcases hr with h | h | h | h
    · exact Or.inl h
    · exact Or.inr (Or.inl h)
    · exact Or.inr (Or.inr (Or.inl h))
    · exact Or.inr (Or.inr (Or.inr (by omega)))
  · intro p m hk herr hbase a r
    have hupd : plantUpdate p m =
        { registerCaches := fun a =>
            if a = rewriteSlave p m.slaveAddress then
              some ((p.registerCaches (rewriteSlave p m.slaveAddress)).getD
                emptyRegCache)
            else p.registerCaches a
          slaveAddress := p.slaveAddress
          inverterSerialNumber := m.inverterSerialNumber.getD p.inverterSerialNumber
          dataAdapterSerialNumber := m.dataAdapterSerialNumber } := by
      simp [plantUpdate, hk, herr, hbase, isRequestKind]
    rw [hupd]
    by_cases ha : a = rewriteSlave p m.slaveAddress
    · rcases hc : p.registerCaches (rewriteSlave p m.slaveAddress) with _ | c <;>
        simp [plantLookup, ha, hc, emptyRegCache]
    · simp [plantLookup, ha]
  · intro p m hk
    rcases hk with hk | hk
    · simp [plantUpdate, hk, isRequestKind]
    · simp [plantUpdate, hk]

/-- A concrete non-error read-holding response: two values for holding
registers 10 and 11 of slave 0x32. -/
def c4Msg : TransparentMessage :=
  { kind := .readHoldingRsp
    inverterSerialNumber := some []
    baseRegister := 10
    registerCount := 2
    registerValues := [7, 8] }

/-- Witness for C4: the theorem applied to `c4Msg` against a default
plant puts value 7 at holding register 10 of the cache for slave 0x32. -/
theorem C4_plant_update_semantics_witness :
    c4Msg.error = false ∧ ValidPduState c4Msg ∧
    plantLookup (plantUpdate defaultPlant c4Msg)
      (rewriteSlave defaultPlant c4Msg.slaveAddress)
      ⟨.hr, c4Msg.baseRegister + ((0 : Nat) : Int)⟩ =
        some c4Msg.registerValues[0] :=
  ⟨rfl, by decide,
    (C4_plant_update_semantics.1 defaultPlant c4Msg .hr (Or.inl ⟨rfl, rfl⟩) rfl
      (by decide)).2.1 0 (by decide)⟩

/-- A read-holding response arriving from slave address 0x11. -/
def c5Msg : TransparentMessage :=
  { kind := .readHoldingRsp
    inverterSerialNumber := some []
    slaveAddress := 0x11
    baseRegister := 0
    registerCount := 1
    registerValues := [7] }

/-- Counterexample for C5: with the plant defaults (configured slave
address 0x31), a response from slave 0x11 lands in the cache for 0x31;
the cache for 0x32 stays empty, refuting the claim that such responses
land in the 0x32 cache. -/
theorem C5_counterexample :
    plantLookup (plantUpdate defaultPlant c5Msg) 0x32 (hrReg 0) = none
    ∧ plantLookup (plantUpdate defaultPlant c5Msg) 0x31 (hrReg 0) = some 7 := by
  constructor <;> rfl

/-- C5 (amended): responses from slave 0x11 or 0x00 are rewritten to the
plant-configured slave address (`Plant.slave_address`, default 0x31, not
the fixed 0x32): caches of all other addresses are untouched, and for a
non-error read response the values land in the cache of the configured
address. -/
theorem C5_slave_rewrite (p : Plant) (m : TransparentMessage)
    (hslave : m.slaveAddress = 0x11 ∨ m.slaveAddress = 0x00) :
    rewriteSlave p m.slaveAddress = p.slaveAddress
    ∧ (∀ a r, a ≠ p.slaveAddress →
        plantLookup (plantUpdate p m) a r = plantLookup p a r)
    ∧ (∀ bank, ((m.kind = .readHoldingRsp ∧ bank = .hr) ∨
        (m.kind = .readInputRsp ∧ bank = .ir)) → m.error = false →
        ∀ i (hi : i < m.registerValues.length),
        plantLookup (plantUpdate p m) p.slaveAddress
          ⟨bank, m.baseRegister + i⟩ = some m.registerValues[i]) := by
  have hrw : rewriteSlave p m.slaveAddress = p.slaveAddress := by
    unfold rewriteSlave
    rcases hslave with h | h <;> simp [h]
  refine ⟨hrw, ?_, ?_⟩
  · intro a r ha
    by_cases h1 : isRequestKind m.kind
    · simp [plantUpdate, h1]
    · by_cases h2 : m.kind = .nullRsp
      · simp [plantUpdate, h1, h2]
      · by_cases h3 : m.error
        · simp [plantUpdate, h1, h2, h3]
        · have ha2 : a ≠ rewriteSlave p m.slaveAddress := by rw [hrw]; exact ha
          simp only [plantUpdate, h1, h2, h3, if_neg, if_false,
            Bool.false_eq_true, plantLookup]
          simp [ha2]
  · intro bank hk herr i hi
    have := (plantUpdate_read p m bank hk herr).1 i hi
    rw [hrw] at this
    exact this

/-- Witness for C5 (amended): applied to `c5Msg` and the default plant,
the values land at holding register 0 of the configured address 0x31. -/
theorem C5_slave_rewrite_witness :
    (c5Msg.slaveAddress = 0x11 ∨ c5Msg.slaveAddress = 0x00)
    ∧ rewriteSlave defaultPlant c5Msg.slaveAddress = defaultPlant.slaveAddress
    ∧ plantLookup (plantUpdate defaultPlant c5Msg) defaultPlant.slaveAddress
        ⟨.hr, c5Msg.baseRegister + ((0 : Nat) : Int)⟩ =
      some c5Msg.registerValues[0] :=
  ⟨Or.inl rfl,
    (C5_slave_rewrite defaultPlant c5Msg (Or.inl rfl)).1,
    (C5_slave_rewrite defaultPlant c5Msg (Or.inl rfl)).2.2 .hr
      (Or.inl ⟨rfl, rfl⟩) rfl 0 (by decide)⟩

end GivEnergy
namespace GivEnergy

/-! ## Wire codec

The payload encoder/decoder live in givenergy_modbus/codec.py, which is not
among the staged sources; the byte-level primitives and the CRC are
modelled from the spec (big-endian primitives, fixed-width NUL-padded
latin-1 strings upper-cased on decode, Modbus CRC-16 with polynomial
0xA001 and initial value 0xFFFF appended little-endian).  The frame
structure itself follows base.py `encode`/`decode_bytes` and
transparent.py `_encode_function_data`/`decode_main_function`. -/

/-- Modelled from the spec: one shift-xor round of the Modbus CRC-16. -/
def crc16Round (c : Nat) : Nat :=
  if c % 2 = 1 then (c / 2) ^^^ 0xA001 else c / 2

/-- Modelled from the spec: fold one byte into the Modbus CRC-16 state. -/
def crc16Byte (c b : Nat) : Nat :=
  crc16Round^[8] (c ^^^ b)

/-- Modelled from the spec: Modbus CRC-16 (polynomial 0xA001, initial
value 0xFFFF, no final xor) over a byte list. -/
def crc16 (bs : List Nat) : Nat :=
  bs.foldl crc16Byte 0xFFFF

/-- Modelled from the spec: big-endian u16 serialization
(`add_16bit_uint`). -/
def enc16 (n : Nat) : List Nat :=
  [n / 256 % 256, n % 256]

/-- Modelled from the spec: little-endian u16 serialization
(`add_16bit_le`, used only for the CRC). -/
def le16 (n : Nat) : List Nat :=
  [n % 256, n / 256 % 256]

/-- Modelled from the spec: big-endian u64 serialization
(`add_64bit_uint`). -/
def enc64 (n : Nat) : List Nat :=
  [n / 256 ^ 7 % 256, n / 256 ^ 6 % 256, n / 256 ^ 5 % 256, n / 256 ^ 4 % 256,
   n / 256 ^ 3 % 256, n / 256 ^ 2 % 256, n / 256 % 256, n % 256]

/-- Modelled from the spec: fixed-width string serialization, NUL-padded
(`add_string`). -/
def encStr (s : List Nat) (w : Nat) : List Nat :=
  s.take w ++ List.replicate (w - s.length) 0

/-- `_encode_function_data` from `slave_address` onwards, i.e. exactly the
bytes the CRC is computed over: slave address, the plain transparent
function code (the error bit is never encoded), then the optional SERIAL,
BASE, COUNT and VALUES fields. -/
def crcSegment (m : TransparentMessage) : List Nat :=
  [m.slaveAddress, tfcOf m.kind]
  ++ (if (fieldsOf m.kind).serial then encStr (m.inverterSerialNumber.getD []) 10
      else [])
  ++ (if (fieldsOf m.kind).base then enc16 m.baseRegister.toNat else [])
  ++ (if (fieldsOf m.kind).count then enc16 m.registerCount.toNat else [])
  ++ (if (fieldsOf m.kind).values then
        (m.registerValues.map fun v => enc16 v.toNat).flatten
      else [])

/-- The inner frame built by `BasePDU.encode` plus
`_encode_function_data`: adapter serial, u64 padding, the CRC-covered
segment, and the CRC appended little-endian. -/
def innerFrame (m : TransparentMessage) : List Nat :=
  encStr m.dataAdapterSerialNumber 10 ++ enc64 m.padding ++ crcSegment m
    ++ le16 (crc16 (crcSegment m))

/-- `BasePDU.encode`: the MBAP-style header (transaction id 0x5959,
protocol id 1, length, unit id 1, function code 2) followed by the inner
frame. -/
def encodePdu (m : TransparentMessage) : List Nat :=
  [0x59, 0x59, 0x00, 0x01] ++ enc16 ((innerFrame m).length + 2) ++ [0x01, 0x02]
    ++ innerFrame m

/-- Decode errors: `InvalidFrame`, `InvalidPduState` and a failed
`assert`. -/
inductive DecodeErr
  | invalidFrame (msg : String)
  | invalidPduState (msg : String)
  | assertError
deriving DecidableEq, Repr

/-- Read one byte. -/
def rdU8 : List Nat → Option (Nat × List Nat)
  | b :: rest => some (b, rest)
  | [] => none

/-- Read one big-endian u16. -/
def rdU16 : List Nat → Option (Nat × List Nat)
  | b0 :: b1 :: rest => some (b0 * 256 + b1, rest)
  | _ => none

/-- Read a fixed number of raw bytes. -/
def rdBytes (n : Nat) (l : List Nat) : Option (List Nat × List Nat) :=
  if n ≤ l.length then some (l.take n, l.drop n) else none

/-- Read one big-endian u64. -/
def rdU64 (l : List Nat) : Option (Nat × List Nat) :=
  if 8 ≤ l.length then some ((l.take 8).foldl (fun a b => a * 256 + b) 0, l.drop 8)
  else none

/-- Read `n` big-endian u16 values. -/
def rdU16s : Nat → List Nat → Option (List Nat × List Nat)
  | 0, l => some ([], l)
  | n + 1, l =>
    match rdU16 l with
    | none => none
    | some (v, rest) =>
      match rdU16s n rest with
      | none => none
      | some (vs, r2) => some (v :: vs, r2)

/-- Modelled from the spec: latin-1 upper-casing applied to serial bytes
on decode. -/
def upperByte (b : Nat) : Nat :=
  if 97 ≤ b ∧ b ≤ 122 then b - 32 else b

/-- The `_pdu_lut` of `TransparentRequest` and `TransparentResponse`. -/
def pduLut (isReq : Bool) (tfc : Nat) : Option TKind :=
  if isReq then
    match tfc with
    | 3 => some .readHoldingReq
    | 4 => some .readInputReq
    | 6 => some .writeHoldingReq
    | 22 => some .readBatteryReq
    | _ => none
  else
    match tfc with
    | 0 => some .nullRsp
    | 3 => some .readHoldingRsp
    | 4 => some .readInputRsp
    | 6 => some .writeHoldingRsp
    | 22 => some .readBatteryRsp
    | _ => none

/-- The `TransparentMessage.__init__` validation as run on decoded
attributes (`cls(**attrs)` at the end of `decode_main_function`). -/
def checkPduState (m : TransparentMessage) : Except DecodeErr TransparentMessage :=
  if (fieldsOf m.kind).serial ∧ m.inverterSerialNumber.isNone then
    .error (.invalidPduState "inverter_serial_number")
  else if (fieldsOf m.kind).base ∧
      (m.baseRegister < 0 ∨ 0xFFFF < m.baseRegister) then
    .error (.invalidPduState "base_register")
  else if (fieldsOf m.kind).count ∧ m.registerCount < 1 then
    .error (.invalidPduState "register_count")
  else if (fieldsOf m.kind).values ∧ m.error = false ∧
      (m.registerValues = [] ∨
        (m.registerValues.length : Int) ≠ m.registerCount) then
    .error (.invalidPduState "register_values")
  else .ok m

/-- Lift a reader result; a short buffer is a frame error. -/
def ofOpt {α : Type} (o : Option α) : Except DecodeErr α :=
  match o with
  | some a => .ok a
  | none => .error (.invalidFrame "frame too short")

/-- `TransparentMessage.decode_main_function`: adapter serial, padding,
slave address, transparent function code with error bit, class choice via
the lut, the optional fields of the class, and the check word; finally the
constructor validation. -/
def decodeMainFunction (isReq : Bool) (l : List Nat) :
    Except DecodeErr TransparentMessage := do
  let (adapter, r1) ← ofOpt (rdBytes 10 l)
  let (pad, r2) ← ofOpt (rdU64 r1)
  let (slave, r3) ← ofOpt (rdU8 r2)
  let (tfcByte, r4) ← ofOpt (rdU8 r3)
  let err : Bool := tfcByte &&& 0x80 != 0
  match pduLut isReq (tfcByte &&& 0x7F) with
  | none => .error (.invalidFrame "No decoder for transparent function")
  | some kind => do
    let (serial, r5) ←
      if (fieldsOf kind).serial then
        (ofOpt (rdBytes 10 r4)).map fun p => (some (p.1.map upperByte), p.2)
      else .ok (none, r4)
    let (base, r6) ←
      if (fieldsOf kind).base then
        (ofOpt (rdU16 r5)).map fun p => ((p.1 : Int), p.2)
      else .ok ((-1 : Int), r5)
    let (count, r7) ←
      if (fieldsOf kind).count then
        (ofOpt (rdU16 r6)).map fun p => ((p.1 : Int), p.2)
      else .ok (classRegisterCount kind, r6)
    let (values, r8) ←
      if (fieldsOf kind).values ∧ err = false then
        (ofOpt (rdU16s count.toNat r7)).map fun p =>
          (p.1.map (fun n => (n : Int)), p.2)
      else .ok ([], r7)
    let (check, _) ← ofOpt (rdU16 r8)
    checkPduState
      { kind := kind
        dataAdapterSerialNumber := adapter
        inverterSerialNumber := serial
        slaveAddress := slave
        baseRegister := base
        registerCount := count
        registerValues := values
        error := err
        padding := pad
        check := (check : Int) }

/-- `BasePDU.decode_bytes`: check the MBAP header (transaction id,
protocol id, declared length, unit id, function code) and hand over to the
transparent decoder; `isReq` selects `TransparentRequest` or
`TransparentResponse` as the decoding class. -/
def decodeBytes (isReq : Bool) (data : List Nat) :
    Except DecodeErr TransparentMessage := do
  let (tid, r1) ← ofOpt (rdU16 data)
  if tid ≠ 0x5959 then .error (.invalidFrame "Transaction ID") else do
  let (pid, r2) ← ofOpt (rdU16 r1)
  if pid ≠ 0x0001 then .error (.invalidFrame "Protocol ID") else do
  let (hlen, r3) ← ofOpt (rdU16 r2)
  if hlen ≠ r3.length then .error (.invalidFrame "Header length") else do
  let (uid, r4) ← ofOpt (rdU8 r3)
  if uid ≠ 0x00 ∧ uid ≠ 0x01 then .error (.invalidFrame "Unit ID") else do
  let (fc, r5) ← ofOpt (rdU8 r4)
  if fc ≠ 2 then .error .assertError else
  decodeMainFunction isReq r5

end GivEnergy
namespace GivEnergy

theorem encStr_length (s : List Nat) (w : Nat) : (encStr s w).length = w := by
  simp [encStr]
  omega

set_option maxRecDepth 20000 in
theorem decode_write_frame (b0 b1 c0 c1 d0 d1 : Nat) :
    decodeBytes true ([89, 89, 0, 1, 0, 28, 1, 2] ++ defaultAdapterSerial
      ++ [0, 0, 0, 0, 0, 0, 0, 8] ++ [50, 6, b0, b1, c0, c1, d0, d1]) =
    checkPduState
      { kind := .writeHoldingReq
        baseRegister := ((b0 * 256 + b1 : Nat) : Int)
        registerCount := 1
        registerValues := [((c0 * 256 + c1 : Nat) : Int)]
        check := ((d0 * 256 + d1 : Nat) : Int) } := rfl

theorem encodePdu_write (r v : Nat) :
    encodePdu (mkWriteRequest r v) =
    [89, 89, 0, 1, 0, 28, 1, 2] ++ defaultAdapterSerial ++ [0, 0, 0, 0, 0, 0, 0, 8]
      ++ [50, 6, r / 256 % 256, r % 256, v / 256 % 256, v % 256,
          crc16 [50, 6, r / 256 % 256, r % 256, v / 256 % 256, v % 256] % 256,
          crc16 [50, 6, r / 256 % 256, r % 256, v / 256 % 256, v % 256] / 256 % 256] := by
  simp [encodePdu, innerFrame, crcSegment, encStr, enc64, enc16, le16,
    mkWriteRequest, defaultAdapterSerial, fieldsOf, tfcOf]

/-- C6 (first half): encoding a `WriteHoldingRegisterRequest` and decoding
the bytes as a request yields a PDU that is equal in the sense of
`WriteHoldingRegisterRequest.__eq__` (same class, same shape hash, same
register values), with the original base register and value. -/
theorem C6_write_request_roundtrip (r v : Nat) (hr : r ≤ 0xFFFF)
    (hv : v ≤ 0xFFFF) :
    ∃ m, decodeBytes true (encodePdu (mkWriteRequest r v)) = Except.ok m
      ∧ WriteReqEq (mkWriteRequest r v) m
      ∧ m.baseRegister = (r : Int) ∧ m.registerValues = [(v : Int)] := by
  have hstep : decodeBytes true (encodePdu (mkWriteRequest r v)) =
      checkPduState
        { kind := .writeHoldingReq
          baseRegister := ((r / 256 % 256 * 256 + r % 256 : Nat) : Int)
          registerCount := 1
          registerValues := [((v / 256 % 256 * 256 + v % 256 : Nat) : Int)]
          check := ((crc16 [50, 6, r / 256 % 256, r % 256, v / 256 % 256, v % 256]
              % 256 * 256
            + crc16 [50, 6, r / 256 % 256, r % 256, v / 256 % 256, v % 256]
              / 256 % 256 : Nat) : Int) } := by
    rw [encodePdu_write r v]
    exact decode_write_frame _ _ _ _ _ _
  have hbn : (r / 256 % 256 * 256 + r % 256 : Nat) = r := by omega
  have hvn : (v / 256 % 256 * 256 + v % 256 : Nat) = v := by omega
  rw [hbn, hvn] at hstep
  rw [show checkPduState
      { kind := .writeHoldingReq
        baseRegister := ((r : Nat) : Int)
        registerCount := 1
        registerValues := [((v : Nat) : Int)]
        check := ((crc16 [50, 6, r / 256 % 256, r % 256, v / 256 % 256, v % 256]
            % 256 * 256
          + crc16 [50, 6, r / 256 % 256, r % 256, v / 256 % 256, v % 256]
            / 256 % 256 : Nat) : Int) } =
      Except.ok
      { kind := .writeHoldingReq
        baseRegister := ((r : Nat) : Int)
        registerCount := 1
        registerValues := [((v : Nat) : Int)]
        check := ((crc16 [50, 6, r / 256 % 256, r % 256, v / 256 % 256, v % 256]
            % 256 * 256
          + crc16 [50, 6, r / 256 % 256, r % 256, v / 256 % 256, v % 256]
            / 256 % 256 : Nat) : Int) } from by
    unfold checkPduState
    rw [if_neg (by simp [fieldsOf])]
    rw [if_neg (by simp only [fieldsOf]; omega)]
    rw [if_neg (by simp [fieldsOf])]
    rw [if_neg (by simp [fieldsOf])]] at hstep
  exact ⟨_, hstep, ⟨rfl, rfl, rfl, rfl⟩, rfl, rfl⟩

/-- Witness for C6: the spec instance register 35, value 20. -/
theorem C6_write_request_roundtrip_witness :
    ∃ m, decodeBytes true (encodePdu (mkWriteRequest 35 20)) = Except.ok m
      ∧ WriteReqEq (mkWriteRequest 35 20) m
      ∧ m.baseRegister = ((35 : Nat) : Int)
      ∧ m.registerValues = [((20 : Nat) : Int)] :=
  C6_write_request_roundtrip 35 20 (by decide) (by decide)

/-- Counterexample for C7: the encoded `WriteHoldingRegisterRequest(35, 20)`
frame with byte 31 (the low byte of the register value, strictly between
the slave-address byte at offset 26 and the CRC at offsets 32-33) replaced
by 21 still decodes successfully - as a write of 21 - because
`decode_main_function` never verifies the CRC. -/
theorem C7_corrupted_byte_decodes :
    (decodeBytes true ((encodePdu (mkWriteRequest 35 20)).set 31 21)).isOk = true
    ∧ ((decodeBytes true ((encodePdu (mkWriteRequest 35 20)).set 31 21)).toOption.map
        fun m => m.registerValues) = some [21] := by
  constructor <;> rfl

/-- C7 (amended): the encoder appends the CRC as a little-endian u16
computed over all bytes from the slave address (offset 26 of the frame) up
to but not including the CRC itself; the decoder performs no CRC
verification, so a frame with a corrupted byte in that range can still
decode (see the counterexample). -/
theorem C7_crc_trailer (m : TransparentMessage) :
    encodePdu m =
      (encodePdu m).take ((encodePdu m).length - 2)
        ++ [crc16 (((encodePdu m).take ((encodePdu m).length - 2)).drop 26) % 256,
            crc16 (((encodePdu m).take ((encodePdu m).length - 2)).drop 26) / 256 % 256] := by
  have hA : ([0x59, 0x59, 0x00, 0x01] ++ enc16 ((innerFrame m).length + 2)
      ++ [0x01, 0x02] ++ encStr m.dataAdapterSerialNumber 10
      ++ enc64 m.padding).length = 26 := by
    simp [enc16, enc64, encStr_length]
  have hsplit : encodePdu m =
      (([0x59, 0x59, 0x00, 0x01] ++ enc16 ((innerFrame m).length + 2)
        ++ [0x01, 0x02] ++ encStr m.dataAdapterSerialNumber 10
        ++ enc64 m.padding) ++ crcSegment m)
      ++ le16 (crc16 (crcSegment m)) := by
    simp [encodePdu, innerFrame]
  set A : List Nat := [0x59, 0x59, 0x00, 0x01]
    ++ enc16 ((innerFrame m).length + 2) ++ [0x01, 0x02]
    ++ encStr m.dataAdapterSerialNumber 10 ++ enc64 m.padding with hAdef
  have hlen : (encodePdu m).length - 2 = (A ++ crcSegment m).length := by
    rw [hsplit]
    simp [le16]
    omega
  have htake : (encodePdu m).take ((encodePdu m).length - 2) = A ++ crcSegment m := by
    rw [hlen]
    conv in (encodePdu m).take _ => rw [hsplit]
    exact List.take_left _ _
  have hdrop : (A ++ crcSegment m).drop 26 = crcSegment m := by
    have : (A ++ crcSegment m).drop A.length = crcSegment m := List.drop_left _ _
    rwa [hA] at this
  rw [htake, hdrop]
  rw [hsplit]
  rfl

end GivEnergy
namespace GivEnergy

/-! ## Inverter register schema (inverter.py)

Each `REGISTER_LUT` entry keeps the parts `lookup_writable_register` reads:
the referenced registers (in order) and the optional `valid` range.  The
`pre_conv`/`post_conv` conversion callables of `RegisterDefinition` are not
used by any operation verified here and are omitted. -/

/-- The projection of `RegisterDefinition` used by
`lookup_writable_register`. -/
structure RegDef where
  registers : List Register
  valid : Option (Int × Int)
deriving DecidableEq, Repr

/-- Constructor shorthand mirroring `Def(pre, post, *registers, valid=...)`. -/
def regDef (rs : List Register) (v : Option (Int × Int)) : RegDef :=
  { registers := rs, valid := v }

/-- Python exception kinds raised by `lookup_writable_register`. -/
inductive PyErr
  | valueError (msg : String)
  | keyError (msg : String)
  | notImplementedError (msg : String)
deriving DecidableEq, Repr

end GivEnergy
namespace GivEnergy

/-- `Inverter.REGISTER_LUT`: every attribute, its registers and its valid
range, in source order. -/
def REGISTER_LUT : List (String × RegDef) := [
  ("device_type_code", regDef [hrReg 0] none),
  ("inverter_max_power", regDef [hrReg 0] none),
  ("model", regDef [hrReg 0] none),
  ("module", regDef [hrReg 1, hrReg 2] none),
  ("num_mppt", regDef [hrReg 3] none),
  ("num_phases", regDef [hrReg 3] none),
  ("enable_ammeter", regDef [hrReg 7] none),
  ("first_battery_serial_number", regDef [hrReg 8, hrReg 9, hrReg 10, hrReg 11, hrReg 12] none),
  ("serial_number", regDef [hrReg 13, hrReg 14, hrReg 15, hrReg 16, hrReg 17] none),
  ("first_battery_bms_firmware_version", regDef [hrReg 18] none),
  ("dsp_firmware_version", regDef [hrReg 19] none),
  ("enable_charge_target", regDef [hrReg 20] (some (0, 1))),
  ("arm_firmware_version", regDef [hrReg 21] none),
  ("generation", regDef [hrReg 21] none),
  ("firmware_version", regDef [hrReg 19, hrReg 21] none),
  ("usb_device_inserted", regDef [hrReg 22] none),
  ("select_arm_chip", regDef [hrReg 23] none),
  ("variable_address", regDef [hrReg 24] none),
  ("variable_value", regDef [hrReg 25] none),
  ("grid_port_max_power_output", regDef [hrReg 26] none),
  ("battery_power_mode", regDef [hrReg 27] (some (0, 1))),
  ("enable_60hz_freq_mode", regDef [hrReg 28] none),
  ("soc_force_adjust", regDef [hrReg 29] (some (0, 3))),
  ("modbus_address", regDef [hrReg 30] none),
  ("user_code", regDef [hrReg 33] none),
  ("modbus_version", regDef [hrReg 34] none),
  ("system_time", regDef [hrReg 35, hrReg 36, hrReg 37, hrReg 38, hrReg 39, hrReg 40] none),
  ("system_time_year", regDef [hrReg 35] (some (0, 65535))),
  ("system_time_month", regDef [hrReg 36] (some (1, 12))),
  ("system_time_day", regDef [hrReg 37] (some (1, 31))),
  ("system_time_hour", regDef [hrReg 38] (some (0, 23))),
  ("system_time_minute", regDef [hrReg 39] (some (0, 59))),
  ("system_time_second", regDef [hrReg 40] (some (0, 59))),
  ("enable_drm_rj45_port", regDef [hrReg 41] none),
  ("enable_reversed_ct_clamp", regDef [hrReg 42] none),
  ("charge_soc", regDef [hrReg 43] none),
  ("discharge_soc", regDef [hrReg 43] none),
  ("discharge_slot_2", regDef [hrReg 44, hrReg 45] none),
  ("discharge_slot_2_start", regDef [hrReg 44] (some (0, 2359))),
  ("discharge_slot_2_end", regDef [hrReg 45] (some (0, 2359))),
  ("bms_firmware_version", regDef [hrReg 46] none),
  ("meter_type", regDef [hrReg 47] none),
  ("enable_reversed_115_meter", regDef [hrReg 48] none),
  ("enable_reversed_418_meter", regDef [hrReg 49] none),
  ("active_power_rate", regDef [hrReg 50] none),
  ("reactive_power_rate", regDef [hrReg 51] none),
  ("power_factor", regDef [hrReg 52] none),
  ("enable_inverter_auto_restart", regDef [hrReg 53] none),
  ("enable_inverter", regDef [hrReg 53] none),
  ("battery_type", regDef [hrReg 54] none),
  ("battery_nominal_capacity", regDef [hrReg 55] none),
  ("discharge_slot_1", regDef [hrReg 56, hrReg 57] none),
  ("discharge_slot_1_start", regDef [hrReg 56] (some (0, 2359))),
  ("discharge_slot_1_end", regDef [hrReg 57] (some (0, 2359))),
  ("enable_auto_judge_battery_type", regDef [hrReg 58] none),
  ("enable_discharge", regDef [hrReg 59] (some (0, 1))),
  ("v_pv_start", regDef [hrReg 60] none),
  ("start_countdown_timer", regDef [hrReg 61] none),
  ("restart_delay_time", regDef [hrReg 62] none),
  ("charge_slot_1", regDef [hrReg 94, hrReg 95] none),
  ("charge_slot_1_start", regDef [hrReg 94] (some (0, 2359))),
  ("charge_slot_1_end", regDef [hrReg 95] (some (0, 2359))),
  ("enable_charge", regDef [hrReg 96] (some (0, 1))),
  ("battery_low_voltage_protection_limit", regDef [hrReg 97] none),
  ("battery_high_voltage_protection_limit", regDef [hrReg 98] none),
  ("battery_voltage_adjust", regDef [hrReg 105] none),
  ("battery_low_force_charge_time", regDef [hrReg 108] none),
  ("enable_bms_read", regDef [hrReg 109] none),
  ("battery_soc_reserve", regDef [hrReg 110] (some (4, 100))),
  ("battery_charge_limit", regDef [hrReg 111] (some (0, 50))),
  ("battery_discharge_limit", regDef [hrReg 112] (some (0, 50))),
  ("enable_buzzer", regDef [hrReg 113] none),
  ("battery_discharge_min_power_reserve", regDef [hrReg 114] (some (4, 100))),
  ("charge_target_soc", regDef [hrReg 116] (some (4, 100))),
  ("charge_soc_stop_2", regDef [hrReg 117] none),
  ("discharge_soc_stop_2", regDef [hrReg 118] none),
  ("charge_soc_stop_1", regDef [hrReg 119] none),
  ("discharge_soc_stop_1", regDef [hrReg 120] none),
  ("enable_local_command_test", regDef [hrReg 121] none),
  ("power_factor_function_model", regDef [hrReg 122] none),
  ("frequency_load_limit_rate", regDef [hrReg 123] none),
  ("enable_low_voltage_fault_ride_through", regDef [hrReg 124] none),
  ("enable_frequency_derating", regDef [hrReg 125] none),
  ("enable_above_6kw_system", regDef [hrReg 126] none),
  ("start_system_auto_test", regDef [hrReg 127] none),
  ("enable_spi", regDef [hrReg 128] none),
  ("inverter_reboot", regDef [hrReg 163] (some (100, 100))),
  ("threephase_balance_mode", regDef [hrReg 167] none),
  ("threephase_abc", regDef [hrReg 168] none),
  ("threephase_balance_1", regDef [hrReg 169] none),
  ("threephase_balance_2", regDef [hrReg 170] none),
  ("threephase_balance_3", regDef [hrReg 171] none),
  ("enable_battery_on_pv_or_grid", regDef [hrReg 175] none),
  ("debug_inverter", regDef [hrReg 176] none),
  ("enable_ups_mode", regDef [hrReg 177] none),
  ("enable_g100_limit_switch", regDef [hrReg 178] none),
  ("enable_battery_cable_impedance_alarm", regDef [hrReg 179] none),
  ("enable_standard_self_consumption_logic", regDef [hrReg 199] none),
  ("cmd_bms_flash_update", regDef [hrReg 200] none),
  ("charge_target_soc_1", regDef [hrReg 242] (some (4, 100))),
  ("charge_slot_2", regDef [hrReg 243, hrReg 244] none),
  ("charge_slot_2_start", regDef [hrReg 243] (some (0, 2359))),
  ("charge_slot_2_end", regDef [hrReg 244] (some (0, 2359))),
  ("charge_target_soc_2", regDef [hrReg 245] (some (4, 100))),
  ("charge_slot_3", regDef [hrReg 246, hrReg 247] none),
  ("charge_slot_3_start", regDef [hrReg 246] (some (0, 2359))),
  ("charge_slot_3_end", regDef [hrReg 247] (some (0, 2359))),
  ("charge_target_soc_3", regDef [hrReg 248] (some (4, 100))),
  ("charge_slot_4", regDef [hrReg 249, hrReg 250] none),
  ("charge_slot_4_start", regDef [hrReg 249] (some (0, 2359))),
  ("charge_slot_4_end", regDef [hrReg 250] (some (0, 2359))),
  ("charge_target_soc_4", regDef [hrReg 251] (some (4, 100))),
  ("charge_slot_5", regDef [hrReg 252, hrReg 253] none),
  ("charge_slot_5_start", regDef [hrReg 252] (some (0, 2359))),
  ("charge_slot_5_end", regDef [hrReg 253] (some (0, 2359))),
  ("charge_target_soc_5", regDef [hrReg 254] (some (4, 100))),
  ("charge_slot_6", regDef [hrReg 255, hrReg 256] none),
  ("charge_slot_6_start", regDef [hrReg 255] (some (0, 2359))),
  ("charge_slot_6_end", regDef [hrReg 256] (some (0, 2359))),
  ("charge_target_soc_6", regDef [hrReg 257] (some (4, 100))),
  ("charge_slot_7", regDef [hrReg 258, hrReg 259] none),
  ("charge_slot_7_start", regDef [hrReg 258] (some (0, 2359))),
  ("charge_slot_7_end", regDef [hrReg 259] (some (0, 2359))),
  ("charge_target_soc_7", regDef [hrReg 260] (some (4, 100))),
  ("charge_slot_8", regDef [hrReg 261, hrReg 262] none),
  ("charge_slot_8_start", regDef [hrReg 261] (some (0, 2359))),
  ("charge_slot_8_end", regDef [hrReg 262] (some (0, 2359))),
  ("charge_target_soc_8", regDef [hrReg 263] (some (4, 100))),
  ("charge_slot_9", regDef [hrReg 264, hrReg 265] none),
  ("charge_slot_9_start", regDef [hrReg 264] (some (0, 2359))),
  ("charge_slot_9_end", regDef [hrReg 265] (some (0, 2359))),
  ("charge_target_soc_9", regDef [hrReg 266] (some (4, 100))),
  ("charge_slot_10", regDef [hrReg 267, hrReg 268] none),
  ("charge_slot_10_start", regDef [hrReg 267] (some (0, 2359))),
  ("charge_slot_10_end", regDef [hrReg 268] (some (0, 2359))),
  ("charge_target_soc_10", regDef [hrReg 269] (some (4, 100))),
  ("discharge_target_soc_1", regDef [hrReg 272] none),
  ("discharge_target_soc_2", regDef [hrReg 275] none),
  ("discharge_slot_3", regDef [hrReg 276, hrReg 277] none),
  ("discharge_slot_3_start", regDef [hrReg 276] (some (0, 2359))),
  ("discharge_slot_3_end", regDef [hrReg 277] (some (0, 2359))),
  ("discharge_target_soc_3", regDef [hrReg 278] none),
  ("discharge_slot_4", regDef [hrReg 279, hrReg 280] none),
  ("discharge_slot_4_start", regDef [hrReg 279] (some (0, 2359))),
  ("discharge_slot_4_end", regDef [hrReg 280] (some (0, 2359))),
  ("discharge_target_soc_4", regDef [hrReg 281] none),
  ("discharge_slot_5", regDef [hrReg 282, hrReg 283] none),
  ("discharge_slot_5_start", regDef [hrReg 282] (some (0, 2359))),
  ("discharge_slot_5_end", regDef [hrReg 283] (some (0, 2359))),
  ("discharge_target_soc_5", regDef [hrReg 284] none),
  ("discharge_slot_6", regDef [hrReg 285, hrReg 286] none),
  ("discharge_slot_6_start", regDef [hrReg 285] (some (0, 2359))),
  ("discharge_slot_6_end", regDef [hrReg 286] (some (0, 2359))),
  ("discharge_target_soc_6", regDef [hrReg 287] none),
  ("discharge_slot_7", regDef [hrReg 288, hrReg 289] none),
  ("discharge_slot_7_start", regDef [hrReg 288] (some (0, 2359))),
  ("discharge_slot_7_end", regDef [hrReg 289] (some (0, 2359))),
  ("discharge_target_soc_7", regDef [hrReg 290] none),
  ("discharge_slot_8", regDef [hrReg 291, hrReg 292] none),
  ("discharge_slot_8_start", regDef [hrReg 291] (some (0, 2359))),
  ("discharge_slot_8_end", regDef [hrReg 292] (some (0, 2359))),
  ("discharge_target_soc_8", regDef [hrReg 293] none),
  ("discharge_slot_9", regDef [hrReg 294, hrReg 295] none),
  ("discharge_slot_9_start", regDef [hrReg 294] (some (0, 2359))),
  ("discharge_slot_9_end", regDef [hrReg 295] (some (0, 2359))),
  ("discharge_target_soc_9", regDef [hrReg 296] none),
  ("discharge_slot_10", regDef [hrReg 297, hrReg 298] none),
  ("discharge_slot_10_start", regDef [hrReg 297] (some (0, 2359))),
  ("discharge_slot_10_end", regDef [hrReg 298] (some (0, 2359))),
  ("discharge_target_soc_10", regDef [hrReg 299] none),
  ("battery_charge_limit_ac", regDef [hrReg 313] none),
  ("battery_discharge_limit_ac", regDef [hrReg 314] none),
  ("battery_pause_mode", regDef [hrReg 318] (some (0, 3))),
  ("battery_pause_slot_1", regDef [hrReg 319, hrReg 320] none),
  ("battery_pause_slot_1_start", regDef [hrReg 319] (some (0, 2359))),
  ("battery_pause_slot_1_end", regDef [hrReg 320] (some (0, 2359))),
  ("pv_power_setting", regDef [hrReg 4107, hrReg 4108] none),
  ("e_battery_discharge_total3", regDef [hrReg 4109, hrReg 4110] none),
  ("e_battery_charge_total3", regDef [hrReg 4111, hrReg 4112] none),
  ("e_battery_discharge_today3", regDef [hrReg 4113] none),
  ("e_battery_charge_today3", regDef [hrReg 4114] none),
  ("e_inverter_export_total", regDef [hrReg 4141, hrReg 4142] none),
  ("status", regDef [irReg 0] none),
  ("v_pv1", regDef [irReg 1] none),
  ("v_pv2", regDef [irReg 2] none),
  ("v_p_bus", regDef [irReg 3] none),
  ("v_n_bus", regDef [irReg 4] none),
  ("v_ac1", regDef [irReg 5] none),
  ("e_battery_throughput_total", regDef [irReg 6, irReg 7] none),
  ("i_pv1", regDef [irReg 8] none),
  ("i_pv2", regDef [irReg 9] none),
  ("i_ac1", regDef [irReg 10] none),
  ("e_pv_total", regDef [irReg 11, irReg 12] none),
  ("f_ac1", regDef [irReg 13] none),
  ("v_highbrigh_bus", regDef [irReg 15] none),
  ("e_pv1_day", regDef [irReg 17] none),
  ("p_pv1", regDef [irReg 18] none),
  ("e_pv2_day", regDef [irReg 19] none),
  ("p_pv2", regDef [irReg 20] none),
  ("e_grid_out_total", regDef [irReg 21, irReg 22] none),
  ("e_solar_diverter", regDef [irReg 23] none),
  ("p_inverter_out", regDef [irReg 24] none),
  ("e_grid_out_day", regDef [irReg 25] none),
  ("e_grid_in_day", regDef [irReg 26] none),
  ("e_inverter_in_total", regDef [irReg 27, irReg 28] none),
  ("e_discharge_year", regDef [irReg 29] none),
  ("p_grid_out", regDef [irReg 30] none),
  ("p_eps_backup", regDef [irReg 31] none),
  ("e_grid_in_total", regDef [irReg 32, irReg 33] none),
  ("e_inverter_in_day", regDef [irReg 35] none),
  ("e_battery_charge_today", regDef [irReg 36] none),
  ("e_battery_discharge_today", regDef [irReg 37] none),
  ("inverter_countdown", regDef [irReg 38] none),
  ("temp_inverter_heatsink", regDef [irReg 41] none),
  ("p_load_demand", regDef [irReg 42] none),
  ("p_grid_apparent", regDef [irReg 43] none),
  ("e_inverter_out_day", regDef [irReg 44] none),
  ("e_inverter_out_total", regDef [irReg 45, irReg 46] none),
  ("work_time_total", regDef [irReg 47, irReg 48] none),
  ("system_mode", regDef [irReg 49] none),
  ("v_battery", regDef [irReg 50] none),
  ("i_battery", regDef [irReg 51] none),
  ("p_battery", regDef [irReg 52] none),
  ("v_eps_backup", regDef [irReg 53] none),
  ("f_eps_backup", regDef [irReg 54] none),
  ("temp_charger", regDef [irReg 55] none),
  ("temp_battery", regDef [irReg 56] none),
  ("i_grid_port", regDef [irReg 58] none),
  ("battery_percent", regDef [irReg 59] none),
  ("e_battery_discharge_total", regDef [irReg 105] none),
  ("e_battery_charge_total", regDef [irReg 106] none),
  ("e_battery_discharge_total2", regDef [hrReg 180] none),
  ("e_battery_charge_total2", regDef [irReg 181] none),
  ("e_battery_discharge_today2", regDef [irReg 182] none),
  ("e_battery_charge_today2", regDef [irReg 183] none)
]

end GivEnergy
namespace GivEnergy

/-- `REGISTER_LUT[name]` as a dict lookup. -/
def lutLookup (name : String) : Option RegDef :=
  (REGISTER_LUT.find? fun e => e.1 == name).map fun e => e.2

/-- `Inverter.lookup_writable_register(name, value)`: require a writable
(`valid`-carrying, single-register) entry, check the range, apply the HHMM
minute rule when the upper bound is 2359, and return the register index;
the failure messages are those of inverter.py. -/
def lookupWritableRegister (name : String) (value : Int) : Except PyErr Int :=
  match lutLookup name with
  | none => .error (.keyError name)
  | some rd =>
    match rd.valid with
    | none => .error (.valueError (name ++ " is not writable"))
    | some (lo, hi) =>
      if 1 < rd.registers.length then
        .error (.notImplementedError "wide register")
      else if value < lo ∨ hi < value then
        .error (.valueError (toString value ++ " out of range for " ++ name))
      else if hi = 2359 ∧ 60 ≤ value % 100 then
        .error (.valueError (toString value ++ " is not a valid time"))
      else .ok (rd.registers.headD (hrReg 0)).idx

set_option maxRecDepth 20000 in
/-- The assert of `RegisterDefinition.__init__`: an entry with a `valid`
range references exactly one register, checked over the whole table. -/
theorem lut_writable_single :
    REGISTER_LUT.all
      (fun e => e.2.valid.isNone || e.2.registers.length == 1) = true := by
  rfl

/-- Substring occurrence between strings (contiguous). -/
def occursIn (needle hay : String) : Prop :=
  needle.data <:+: hay.data

instance (needle hay : String) : Decidable (occursIn needle hay) := by
  unfold occursIn
  infer_instance

end GivEnergy
namespace GivEnergy

theorem lut_single_of_lookup (name : String) (rd : RegDef)
    (hlut : lutLookup name = some rd) (hv : rd.valid.isSome) :
    rd.registers.length = 1 := by
  unfold lutLookup at hlut
  obtain ⟨e, hfind, he⟩ := Option.map_eq_some'.mp hlut
  have hmem : e ∈ REGISTER_LUT := List.mem_of_find?_eq_some hfind
  have hall := List.all_eq_true.mp lut_writable_single e hmem
  rcases Bool.or_eq_true_iff.mp hall with h | h
  · rw [he] at h
    rw [Option.isNone_iff_eq_none.mp h] at hv
    simp at hv
  · rw [he] at h
    simpa using h

/-- C8 (amended): for every attribute of the register table,
`lookup_writable_register(name, value)` returns the single register index
exactly when the entry carries a `valid` range, `min ≤ value ≤ max` holds,
and - when `max = 2359` - the HHMM minute part is below 60.  Failures are
value errors: out-of-range values are reported as
`"<value> out of range for <name>"` (naming value and attribute, as the
claim illustrates), a non-writable attribute as `"<name> is not writable"`
(naming only the attribute), and an in-range value with minute part 60-99
as `"<value> is not a valid time"` (naming only the value). -/
theorem C8_lookup_writable_register (name : String) (value : Int) (rd : RegDef)
    (hlut : lutLookup name = some rd) :
    (∀ lo hi, rd.valid = some (lo, hi) →
      ((lo ≤ value ∧ value ≤ hi ∧ (hi = 2359 → value % 100 < 60)) →
        lookupWritableRegister name value =
          .ok (rd.registers.headD (hrReg 0)).idx)
      ∧ ((value < lo ∨ hi < value) →
        lookupWritableRegister name value =
          .error (.valueError (toString value ++ " out of range for " ++ name)))
      ∧ (lo ≤ value → value ≤ hi → hi = 2359 → 60 ≤ value % 100 →
        lookupWritableRegister name value =
          .error (.valueError (toString value ++ " is not a valid time"))))
    ∧ (rd.valid = none →
      lookupWritableRegister name value =
        .error (.valueError (name ++ " is not writable")))
    ∧ (∀ idx, lookupWritableRegister name value = .ok idx →
        ∃ lo hi, rd.valid = some (lo, hi) ∧ lo ≤ value ∧ value ≤ hi ∧
          (hi = 2359 → value % 100 < 60)) := by
  refine ⟨?_, ?_, ?_⟩
  · intro lo hi hv
    have hlen : ¬ 1 < rd.registers.length := by
      rw [lut_single_of_lookup name rd hlut (by rw [hv]; rfl)]
      omega
    refine ⟨?_, ?_, ?_⟩
    · intro ⟨h1, h2, h3⟩
      simp only [lookupWritableRegister, hlut, hv]
      rw [if_neg hlen, if_neg (by omega)]
      rw [if_neg ?_]
      intro ⟨he, hm⟩
      have := h3 he
      omega
    · intro h
      simp only [lookupWritableRegister, hlut, hv]
      rw [if_neg hlen, if_pos (by omega)]
    · intro h1 h2 h3 h4
      simp only [lookupWritableRegister, hlut, hv]
      rw [if_neg hlen, if_neg (by omega), if_pos ⟨h3, h4⟩]
  · intro hv
    simp only [lookupWritableRegister, hlut, hv]
  · intro idx hok
    rcases hv : rd.valid with _ | ⟨lo, hi⟩
    · simp only [lookupWritableRegister, hlut, hv] at hok
      exact Except.noConfusion hok
    · refine ⟨lo, hi, rfl, ?_⟩
      simp only [lookupWritableRegister, hlut, hv] at hok
      by_cases hlen : 1 < rd.registers.length
      · rw [if_pos hlen] at hok
        cases hok
      · rw [if_neg hlen] at hok
        by_cases hrange : value < lo ∨ hi < value
        · rw [if_pos hrange] at hok
          cases hok
        · rw [if_neg hrange] at hok
          by_cases htime : hi = 2359 ∧ 60 ≤ value % 100
          · rw [if_pos htime] at hok
            cases hok
          · refine ⟨by omega, by omega, ?_⟩
            intro he
            by_contra hm
            exact htime ⟨he, by omega⟩

/-- Witness for C8: the spec example - looking up `charge_target_soc` with
value 0 fails with exactly `0 out of range for charge_target_soc`. -/
theorem C8_lookup_writable_register_witness :
    lutLookup "charge_target_soc" = some (regDef [hrReg 116] (some (4, 100)))
    ∧ lookupWritableRegister "charge_target_soc" 0 =
        .error (.valueError "0 out of range for charge_target_soc") :=
  ⟨rfl,
    ((C8_lookup_writable_register "charge_target_soc" 0
      (regDef [hrReg 116] (some (4, 100))) rfl).1 4 100 rfl).2.1 (by omega)⟩

/-- Counterexample for C8: an in-range HHMM value with minute part 60
raises a value error whose message names only the offending value - the
attribute name `discharge_slot_1_start` does not occur in it - refuting
the claim that failures name both the offending value and the attribute. -/
theorem C8_counterexample :
    lookupWritableRegister "discharge_slot_1_start" 1260 =
      .error (.valueError "1260 is not a valid time")
    ∧ ¬ occursIn "discharge_slot_1_start" "1260 is not a valid time" := by
  constructor
  · rfl
  · decide

end GivEnergy
namespace GivEnergy

/-! ## Command composer (commands.py)

Python booleans passed as register values (`enable_discharge`) are
modelled as 0/1, their integer values. -/

/-- A `datetime.time` as used by `TimeSlot` (hour and minute only). -/
structure PyTime where
  hour : Nat
  minute : Nat
deriving DecidableEq, Repr

/-- A `TimeSlot`; the python field `end` is called `stop` here because
`end` is reserved. -/
structure TimeSlot where
  start : PyTime
  stop : PyTime
deriving DecidableEq, Repr

/-- `Commands.write_named_register`: look the register up (with range
validation) and build a `WriteHoldingRegisterRequest`. -/
def writeNamedRegister (name : String) (value : Int) :
    Except PyErr TransparentMessage :=
  (lookupWritableRegister name value).map fun idx => mkWriteRequest idx value

/-- `Commands.set_discharge_mode_max_power`: battery_power_mode = 0. -/
def setDischargeModeMaxPower : Except PyErr (List TransparentMessage) := do
  pure [← writeNamedRegister "battery_power_mode" 0]

/-- `Commands.set_discharge_mode_to_match_demand`: battery_power_mode = 1. -/
def setDischargeModeToMatchDemand : Except PyErr (List TransparentMessage) := do
  pure [← writeNamedRegister "battery_power_mode" 1]

/-- `Commands.set_battery_soc_reserve`. -/
def setBatterySocReserve (val : Int) : Except PyErr (List TransparentMessage) := do
  pure [← writeNamedRegister "battery_soc_reserve" val]

/-- `Commands.set_enable_discharge`. -/
def setEnableDischarge (enabled : Bool) : Except PyErr (List TransparentMessage) := do
  pure [← writeNamedRegister "enable_discharge" (if enabled then 1 else 0)]

/-- `Commands._set_charge_slot`: two writes, the `HHMM` start and end of
the slot (zero when resetting). -/
def setChargeSlot (discharge : Bool) (idx : Nat) (slot : Option TimeSlot) :
    Except PyErr (List TransparentMessage) := do
  let chdis := if discharge then "discharge" else "charge"
  let start : Int :=
    match slot with
    | some s => s.start.hour * 100 + s.start.minute
    | none => 0
  let stop : Int :=
    match slot with
    | some s => s.stop.hour * 100 + s.stop.minute
    | none => 0
  let w1 ← writeNamedRegister (chdis ++ "_slot_" ++ toString idx ++ "_start") start
  let w2 ← writeNamedRegister (chdis ++ "_slot_" ++ toString idx ++ "_end") stop
  pure [w1, w2]

/-- `Commands.set_mode_storage(discharge_slot_1, discharge_slot_2,
discharge_for_export)`: discharge mode (export or match-demand), SOC
reserve 100, discharge enabled, slot 1 set, slot 2 set or reset. -/
def setModeStorage (dischargeSlot1 : TimeSlot) (dischargeSlot2 : Option TimeSlot)
    (dischargeForExport : Bool) : Except PyErr (List TransparentMessage) := do
  let ret ←
    if dischargeForExport then setDischargeModeMaxPower
    else setDischargeModeToMatchDemand
  let r110 ← setBatterySocReserve 100
  let r59 ← setEnableDischarge true
  let slot1 ← setChargeSlot true 1 (some dischargeSlot1)
  let slot2 ←
    match dischargeSlot2 with
    | some s => setChargeSlot true 2 (some s)
    | none => setChargeSlot true 2 none
  pure (ret ++ r110 ++ r59 ++ slot1 ++ slot2)

set_option maxRecDepth 20000 in
/-- C9: `set_mode_storage` with the single discharge slot 01:02-03:04, no
second slot and `discharge_for_export = False` produces exactly, in order,
the writes 27 = 1, 110 = 100, 59 = 1, 56 = 102, 57 = 304, 44 = 0, 45 = 0. -/
theorem C9_set_mode_storage :
    setModeStorage ⟨⟨1, 2⟩, ⟨3, 4⟩⟩ none false =
      .ok [mkWriteRequest 27 1, mkWriteRequest 110 100, mkWriteRequest 59 1,
        mkWriteRequest 56 102, mkWriteRequest 57 304,
        mkWriteRequest 44 0, mkWriteRequest 45 0] := by
  rfl

end GivEnergy
namespace GivEnergy

/-! ## Register cache JSON round trip (register_cache.py)

`RegisterCache.json()` serialises the dict with python `json.dumps`;
`from_json` parses it back, mapping each key string through the object
hook of register_cache.py.  JSON strings are modelled as latin-1 byte
lists, and the JSON object as an association list of (key, value) pairs.
The key layout

  Modelled from the spec: the `Register` class of
  givenergy_modbus/model/register.py is not among the staged sources; per
  the spec a register serialises as `"HR(17)"` / `"IR(17)"`.

The object hook itself (splitting at the first `(` or `:`, `int()` on the
index, the `lookup` dict, and the try/except around the assignment) is
embedded from register_cache.py.  Python `int()` also tolerates
surrounding whitespace and underscores between digits; the model accepts
an optional sign followed by digits, which agrees with `int()` on every
key either side of the round trip produces. -/

/-- Decimal digits of a natural, most significant first (codes 48-57). -/
def natChars (n : Nat) : List Nat :=
  if n < 10 then [48 + n] else natChars (n / 10) ++ [48 + n % 10]
termination_by n
decreasing_by exact Nat.div_lt_self (by omega) (by omega)

/-- The scale factor of `natChars`: 10 to the number of digits. -/
def tenPow (n : Nat) : Nat :=
  if n < 10 then 10 else tenPow (n / 10) * 10
termination_by n
decreasing_by exact Nat.div_lt_self (by omega) (by omega)

/-- Decimal form of a python int (`str(i)`). -/
def intChars (i : Int) : List Nat :=
  if i < 0 then 45 :: natChars (-i).toNat else natChars i.toNat

/-- A decimal digit byte and its value. -/
def digitVal (b : Nat) : Option Nat :=
  if 48 ≤ b ∧ b ≤ 57 then some (b - 48) else none

def parseDigitsAux : List Nat → Nat → Option Nat
  | [], acc => some acc
  | b :: rest, acc =>
    match digitVal b with
    | none => none
    | some d => parseDigitsAux rest (acc * 10 + d)

/-- Parse a non-empty all-digit byte string. -/
def parseDigits (l : List Nat) : Option Nat :=
  if l.isEmpty then none else parseDigitsAux l 0

/-- Python `int(str)` on a byte string: optional sign, then digits;
`none` models the `ValueError`. -/
def pyParseInt (l : List Nat) : Option Int :=
  match l with
  | [] => none
  | b :: rest =>
    if b = 45 then (parseDigits rest).map fun n => -(Int.ofNat n)
    else if b = 43 then (parseDigits rest).map fun n => Int.ofNat n
    else (parseDigits (b :: rest)).map fun n => Int.ofNat n

/-- The two-letter bank tag (`Register._type`). -/
def bankBytes : RegBank → List Nat
  | .hr => [72, 82]
  | .ir => [73, 82]

/-- Modelled from the spec: the JSON key of a register, `"HR(<idx>)"` or
`"IR(<idx>)"`. -/
def serializeRegKey (r : Register) : List Nat :=
  bankBytes r.bank ++ [40] ++ intChars r.idx ++ [41]

/-- Python exceptions escaping `from_json` (payload: the offending key or
bank tag). -/
inductive CacheErr
  | valueError (key : List Nat)
  | keyError (bank : List Nat)
deriving DecidableEq, Repr

/-- Index of the first occurrence of a byte (`str.find`). -/
def idxOfChar (ch : Nat) : List Nat → Option Nat
  | [] => none
  | b :: rest =>
    if b = ch then some 0 else (idxOfChar ch rest).map fun i => i + 1

/-- The register-object hook of `RegisterCache.from_json` for one key:
split at the first `(` when it is past position 0 (dropping the final
byte of the remainder), else at the first `:`, else raise `ValueError`;
`lookup[reg]` raises `KeyError` for a bank other than HR/IR; a failing
`int()` on the index is caught and the entry silently discarded
(`Option.none`). -/
def parseRegKey (k : List Nat) : Except CacheErr (Option Register) :=
  let parenSplit : Option (List Nat × List Nat) :=
    match idxOfChar 40 k with
    | some i => if 0 < i then some (k.take i, (k.drop (i + 1)).dropLast) else none
    | none => none
  let anySplit : Option (List Nat × List Nat) :=
    match parenSplit with
    | some p => some p
    | none =>
      match idxOfChar 58 k with
      | some i => if 0 < i then some (k.take i, k.drop (i + 1)) else none
      | none => none
  match anySplit with
  | none => .error (.valueError k)
  | some (reg, idxStr) =>
    let bank : Option RegBank :=
      if reg = [72, 82] then some .hr
      else if reg = [73, 82] then some .ir
      else none
    match bank with
    | none => .error (.keyError reg)
    | some b =>
      match pyParseInt idxStr with
      | none => .ok none
      | some i => .ok (some ⟨b, i⟩)

/-- `RegisterCache.from_json` over the parsed JSON object: apply the hook
to each key in order, keeping the successfully parsed entries. -/
def fromJsonPairs : List (List Nat × Int) → Except CacheErr (List (Register × Int))
  | [] => .ok []
  | (k, v) :: rest =>
    match parseRegKey k with
    | .error e => .error e
    | .ok ro =>
      match fromJsonPairs rest with
      | .error e => .error e
      | .ok tail =>
        match ro with
        | none => .ok tail
        | some r => .ok ((r, v) :: tail)

/-- `RegisterCache.json()`: serialise each entry under its register key. -/
def cacheJsonPairs (c : List (Register × Int)) : List (List Nat × Int) :=
  c.map fun rv => (serializeRegKey rv.1, rv.2)

end GivEnergy
namespace GivEnergy

theorem parseDigitsAux_append (l1 l2 : List Nat) : ∀ acc,
    parseDigitsAux (l1 ++ l2) acc =
      match parseDigitsAux l1 acc with
      | none => none
      | some m => parseDigitsAux l2 m := by
  induction l1 with
  | nil => intro acc; rfl
  | cons b rest ih =>
    intro acc
    simp only [List.cons_append, parseDigitsAux]
    rcases h : digitVal b with _ | d
    · rfl
    · exact ih _

theorem parseDigitsAux_natChars (n : Nat) : ∀ acc,
    parseDigitsAux (natChars n) acc = some (acc * tenPow n + n) := by
  induction n using Nat.strong_induction_on with
  | _ n ih =>
    intro acc
    by_cases h : n < 10
    · rw [natChars, if_pos h, tenPow, if_pos h]
      simp only [parseDigitsAux, digitVal]
      rw [if_pos (by omega)]
      simp only [parseDigitsAux]
      congr 1
      omega
    · rw [natChars, if_neg h, tenPow, if_neg h]
      rw [parseDigitsAux_append]
      rw [ih (n / 10) (Nat.div_lt_self (by omega) (by omega)) acc]
      simp only [parseDigitsAux, digitVal]
      rw [if_pos (by omega)]
      simp only [parseDigitsAux]
      congr 1
      have hmul : acc * (tenPow (n / 10) * 10) = acc * tenPow (n / 10) * 10 := by
        ring
      rw [hmul]
      omega

theorem natChars_ne_nil (n : Nat) : natChars n ≠ [] := by
  rw [natChars]
  split <;> simp

theorem parseDigits_natChars (n : Nat) : parseDigits (natChars n) = some n := by
  unfold parseDigits
  rw [if_neg (by simpa using natChars_ne_nil n)]
  rw [parseDigitsAux_natChars n 0]
  simp

theorem natChars_mem_digit (n : Nat) : ∀ b ∈ natChars n, 48 ≤ b ∧ b ≤ 57 := by
  induction n using Nat.strong_induction_on with
  | _ n ih =>
    intro b hb
    rw [natChars] at hb
    by_cases h : n < 10
    · rw [if_pos h] at hb
      simp at hb
      omega
    · rw [if_neg h] at hb
      simp only [List.mem_append, List.mem_singleton] at hb
      rcases hb with hb | hb
      · exact ih (n / 10) (Nat.div_lt_self (by omega) (by omega)) b hb
      · have : n % 10 < 10 := Nat.mod_lt _ (by omega)
        omega

theorem pyParseInt_intChars (i : Int) : pyParseInt (intChars i) = some i := by
  unfold intChars
  by_cases h : i < 0
  · rw [if_pos h]
    simp only [pyParseInt, if_pos rfl]
    rw [parseDigits_natChars]
    simp only [Option.map_some', if_true, Int.ofNat_eq_natCast,
      Option.some.injEq]
    omega
  · rw [if_neg h]
    obtain ⟨b, rest, hcons⟩ := List.exists_cons_of_ne_nil (natChars_ne_nil i.toNat)
    have hd := natChars_mem_digit i.toNat b (hcons ▸ List.mem_cons_self b rest)
    rw [hcons]
    simp only [pyParseInt]
    rw [if_neg (by omega), if_neg (by omega)]
    rw [← hcons, parseDigits_natChars]
    simp only [Option.map_some']
    congr 1
    simp only [Int.ofNat_eq_natCast]
    omega

theorem parseRegKey_serialize (r : Register) :
    parseRegKey (serializeRegKey r) = .ok (some r) := by
  obtain ⟨bank, idx⟩ := r
  cases bank <;>
    simp [parseRegKey, serializeRegKey, bankBytes, idxOfChar,
      List.dropLast_concat, pyParseInt_intChars]

/-- Counterexample for C10: a key without the `<bank>(<idx>)` form (here
the bytes of `foo`) is not silently discarded - `from_json` raises
`ValueError` from the object hook (line 38 of register_cache.py is outside
the try/except). -/
theorem C10_counterexample :
    fromJsonPairs [([102, 111, 111], 1)] =
      .error (.valueError [102, 111, 111]) := by
  rfl

/-- C10 (amended): serialising a register cache and re-parsing it yields
the same cache; during parsing, a key of the `<bank>(<idx>)` form whose
index is not an integer (here `HR(xy)`) is silently discarded, but a key
lacking the form raises `ValueError` and an unknown bank tag (here
`XX(1)`) raises `KeyError`. -/
theorem C10_json_roundtrip :
    (∀ c : List (Register × Int), fromJsonPairs (cacheJsonPairs c) = .ok c)
    ∧ fromJsonPairs [([72, 82, 40, 120, 121, 41], 5)] = .ok []
    ∧ fromJsonPairs [([88, 88, 40, 49, 41], 7)] = .error (.keyError [88, 88]) := by
  refine ⟨?_, rfl, rfl⟩
  intro c
  induction c with
  | nil => rfl
  | cons rv rest ih =>
    obtain ⟨r, v⟩ := rv
    simp only [cacheJsonPairs, List.map_cons] at ih ⊢
    simp only [fromJsonPairs]
    rw [parseRegKey_serialize]
    rw [ih]

end GivEnergy
